import Mathlib

/-!
Verification of the pyucallerapi repository (a Python client for the uCaller
phone-verification HTTP API) against its natural-language specification.

The development shallowly embeds `src/api.py`:
 - `BaseUCaller.check_phone` (a fixed Python regex, embedded as a small
   backtracking matcher over a regex syntax tree),
 - `BaseUCaller.change_phone` (phone normalization),
 - `BaseUCaller.__init__` and the `key` / `session` property setters,
 - `APIUCaller.init_call` (validation, URL construction, transport call,
   exception handling), with the transport (`requests.Session.get` followed
   by `Response.json()`) as an explicit oracle parameter.

Python-instance state is embedded as a list of (attribute-name, value) pairs
keyed by the *mangled* attribute names Python actually uses: an identifier of
the form `__name` appearing inside `class C` is compiled to `_C__name`.  This
matters because `BaseUCaller.__init__` stores `_BaseUCaller__base_url` while
`APIUCaller.init_call` reads `self.__base_url`, i.e. `_APIUCaller__base_url`,
which was never set — so the lookup raises `AttributeError`.

Exceptions are embedded with `Except`; the distinct exception classes of the
repository's `exception` module and the relevant Python built-ins are the
constructors of `PyErr`.

The repository's newer request pipeline (the installable `pyucallerapi`
package with typed pydantic response models, fail-soft transport handling and
a deprecation warning on `init_repeat`) is not present under `src/`; only its
test-suite is.  The parts of it that claims need are modelled from the spec
and are marked `Modelled from the spec:` in their doc comments.
-/

/-- A JSON value as produced by `Response.json()`.  Only the shapes the
claims need: booleans, strings and numbers (JSON numerals are embedded as
rationals to stay exact). -/
inductive JVal where
  | bool (b : Bool)
  | str (s : String)
  | num (q : ℚ)
  deriving DecidableEq

/-- A JSON object (a Python dict), as a list of key/value pairs. -/
def Json : Type := List (String × JVal)

instance : DecidableEq Json := by
  unfold Json
  infer_instance

/-- Field lookup in a JSON object. -/
def jLookup (j : Json) (k : String) : Option JVal := List.lookup k j

/-- Boolean field of a JSON object. -/
def jBool (j : Json) (k : String) : Option Bool :=
  match jLookup j k with
  | some (JVal.bool b) => some b
  | _ => none

/-- String field of a JSON object. -/
def jStr (j : Json) (k : String) : Option String :=
  match jLookup j k with
  | some (JVal.str s) => some s
  | _ => none

/-- Numeric field of a JSON object. -/
def jNum (j : Json) (k : String) : Option ℚ :=
  match jLookup j k with
  | some (JVal.num q) => some q
  | _ => none

/-- The exceptions that can be raised by the embedded code: the exception
classes of the repository's `exception` module actually used by `api.py`
(`SetKey`, `SetSession`, `SetServiceId`, `ParamSetException`, `GetException`)
together with the Python built-ins `AttributeError` and `IndexError` that
some code paths of `api.py` hit. -/
inductive PyErr where
  | setKey
  | setSession
  | setServiceId
  | paramSetException
  | getException
  | attributeError
  | indexError
  deriving DecidableEq

/-- A `requests.Session` object: either one injected by the caller of
`__init__`, or the fresh one `__init__` builds (whose observable state here
is the headers dict it is given). -/
inductive Session where
  | injected (id : Nat)
  | defaultSession (headers : List (String × String))
  deriving DecidableEq

/-- The headers `BaseUCaller.__init__` assigns to a freshly created session
(api.py lines 39-43). -/
def jsonHeaders : List (String × String) :=
  [("ContentType", "application/json"),
   ("Accept", "application/json"),
   ("Content-Encoding", "utf-8")]

/-- A value stored in a Python instance attribute of this program. -/
inductive AttrVal where
  | nat (n : Nat)
  | str (s : String)
  | sess (s : Session)
  deriving DecidableEq

/-- The attribute dictionary of a Python instance, keyed by the *mangled*
attribute names (`self.__x` inside `class C` reads or writes `_C__x`). -/
def Attrs : Type := List (String × AttrVal)

instance : DecidableEq Attrs := by
  unfold Attrs
  infer_instance

/-- `getattr` for a string-valued attribute; `none` models `AttributeError`. -/
def lookupStr (a : Attrs) (k : String) : Option String :=
  match List.lookup k a with
  | some (AttrVal.str s) => some s
  | _ => none

/-- `getattr` for an int-valued attribute; `none` models `AttributeError`. -/
def lookupNat (a : Attrs) (k : String) : Option Nat :=
  match List.lookup k a with
  | some (AttrVal.nat n) => some n
  | _ => none

/-- `setattr`: overwrite the binding of `k`, or append it. -/
def setAttr (a : Attrs) (k : String) (v : AttrVal) : Attrs :=
  match a with
  | [] => [(k, v)]
  | (k2, v2) :: rest => if k2 = k then (k, v) :: rest else (k2, v2) :: setAttr rest k v

/-- Syntax of the fragment of Python regular expressions needed for
`BaseUCaller.__REGEX_PHONE`: empty pattern, single-character class,
concatenation, alternation and an optional (`?`) postfix. -/
inductive RE where
  | eps
  | chr (p : Char → Bool)
  | cat (a b : RE)
  | alt (a b : RE)
  | opt (a : RE)

/-- All suffixes of the input that remain after some match of the pattern on
a prefix; a backtracking matcher for the `RE` fragment (Python `re` tries
alternatives left to right, but for the boolean "does it match" question only
the set of residuals matters). -/
def RE.residuals : RE → List Char → List (List Char)
  | .eps, s => [s]
  | .chr _, [] => []
  | .chr p, c :: s => if p c then [s] else []
  | .cat a b, s => (a.residuals s).flatMap (fun s2 => b.residuals s2)
  | .alt a b, s => a.residuals s ++ b.residuals s
  | .opt a, s => a.residuals s ++ [s]

/-- Python's `\s` on the ASCII range (space, tab, newline, carriage return,
vertical tab, form feed); the phone inputs of interest are ASCII. -/
def isSpaceChar (c : Char) : Bool :=
  c = ' ' || c = '\t' || c = '\n' || c = '\r' || c = '\x0b' || c = '\x0c'

/-- The character class `[\s\-]` of the phone regex. -/
def sepClass (c : Char) : Bool := isSpaceChar c || c = '-'

/-- The character class `[0-9]`. -/
def digitClass (c : Char) : Bool := '0' ≤ c && c ≤ '9'

/-- A literal character of the regex. -/
def litRE (c : Char) : RE := RE.chr (fun x => x = c)

/-- `[0-9]{n}`. -/
def digitsRE : Nat → RE
  | 0 => RE.eps
  | n + 1 => RE.cat (RE.chr digitClass) (digitsRE n)

/-- `BaseUCaller.__REGEX_PHONE` (api.py line 8):
`^(\+7|7|8)?[\s\-]?\(?[489][0-9]{2}\)?[\s\-]?[0-9]{3}[\s\-]?[0-9]{2}[\s\-]?[0-9]{2}$`
as an `RE` syntax tree (the leading `^` is redundant under `re.match`). -/
def phoneRE : RE :=
  RE.cat (RE.opt (RE.alt (RE.cat (litRE '+') (litRE '7'))
                         (RE.alt (litRE '7') (litRE '8'))))
  (RE.cat (RE.opt (RE.chr sepClass))
  (RE.cat (RE.opt (litRE '('))
  (RE.cat (RE.chr (fun c => c = '4' || c = '8' || c = '9'))
  (RE.cat (digitsRE 2)
  (RE.cat (RE.opt (litRE ')'))
  (RE.cat (RE.opt (RE.chr sepClass))
  (RE.cat (digitsRE 3)
  (RE.cat (RE.opt (RE.chr sepClass))
  (RE.cat (digitsRE 2)
  (RE.cat (RE.opt (RE.chr sepClass))
  (digitsRE 2)))))))))))

/-- `BaseUCaller.check_phone` (api.py lines 133-137): `re.match` of the phone
regex against the input; the pattern's trailing `$` accepts the end of the
string or a single final newline (Python `$` semantics). -/
def BaseUCaller.check_phone (phone : String) : Bool :=
  (phoneRE.residuals phone.data).any (fun r => r.isEmpty || r == ['\n'])

/-- `BaseUCaller.change_phone` (api.py lines 139-149).  Faithful to Python
indexing: `phone[0]` on an empty string raises `IndexError` (`none`), and the
first branch `phone[0] == "+" and phone[1] == "7"` evaluates `phone[1]` — an
`IndexError` on the one-character string `"+"` — only after `phone[0]` was
`'+'`.  The `'8'` branch and the final else branch both produce
`"7" + phone[1:]`. -/
def BaseUCaller.change_phone (phone : String) : Option String :=
  match phone.data with
  | [] => none
  | c0 :: tail =>
    if c0 = '+' then
      match tail with
      | [] => none
      | c1 :: _ => if c1 = '7' then some (String.mk tail)
                   else some (String.mk ('7' :: tail))
    else if c0 = '7' then some phone
    else if c0 = '8' then some (String.mk ('7' :: tail))
    else some (String.mk ('7' :: tail))

/-- The default value of `BaseUCaller.__init__`'s `key` parameter
(api.py line 15), 32 characters long. -/
def defaultKey : String := "SezKuYbfSaKT8j211ESjTgnlLcyNf4K5"

/-- `BaseUCaller.__init__` (api.py lines 12-46).  Stores `__service_id`;
then, if `len(key) > 32`, executes `raise SetKey(self.__class__.__qualname__,
self.service_id.__name__, ...)`: the arguments are evaluated before the
exception exists, `self.service_id` is the stored *int*, and an int has no
`__name__`, so the attempted raise itself raises `AttributeError` (api.py
line 29).  Otherwise the key is stored unchanged; a `None` session is
replaced by a fresh session carrying `jsonHeaders` (lines 35-43); the base
URL and API version are stored (lines 45-46).  All attribute names are the
mangled ones Python produces inside `class BaseUCaller`. -/
def BaseUCaller.init (service_id : Nat) (key : String) (session : Option Session) :
    Except PyErr Attrs :=
  if 32 < key.length then
    Except.error PyErr.attributeError
  else
    Except.ok
      [("_BaseUCaller__service_id", AttrVal.nat service_id),
       ("_BaseUCaller__key", AttrVal.str key),
       ("_BaseUCaller__session", AttrVal.sess
          (match session with
           | some s => s
           | none => Session.defaultSession jsonHeaders)),
       ("_BaseUCaller__base_url", AttrVal.str "https://api.ucaller.ru/"),
       ("_BaseUCaller__version_api", AttrVal.str "v1.0")]

/-- The `key` property setter (api.py lines 93-107).  Like `__init__`, the
over-length branch evaluates `self.service_id.__name__` on an int while
building the `SetKey` arguments and therefore raises `AttributeError`
(api.py line 103); a key of length at most 32 is stored unchanged. -/
def BaseUCaller.keySetter (self : Attrs) (key : String) : Except PyErr Attrs :=
  if 32 < key.length then
    Except.error PyErr.attributeError
  else
    Except.ok (setAttr self "_BaseUCaller__key" (AttrVal.str key))

/-- The `session` property setter (api.py lines 118-131).  On `None` it
executes `raise SetSession(..., self.session.__name__, ...)`: `self.session`
is the stored `requests.Session` *instance*, which has no `__name__`, so the
attempted raise itself raises `AttributeError` (api.py line 128).  A
non-`None` session is stored. -/
def BaseUCaller.sessionSetter (self : Attrs) (session : Option Session) :
    Except PyErr Attrs :=
  match session with
  | none => Except.error PyErr.attributeError
  | some s => Except.ok (setAttr self "_BaseUCaller__session" (AttrVal.sess s))

/-- The outcome of `self.session.get(url, timeout=...)` followed by
`Response.json()`: either a parsed JSON body, or a raised
`requests.exceptions.RequestException` (connection error, timeout, ...). -/
inductive TransportResult where
  | ok (body : Json)
  | requestException (msg : String)

/-- The transport oracle: what the configured session does for a given URL. -/
def Transport : Type := String → TransportResult

/-- A transport that answers every URL with an empty JSON object (used only
to instantiate theorems at concrete inputs). -/
def trStub : Transport := fun _ => TransportResult.ok []

/-- A transport whose `get` raises `requests.exceptions.ConnectionError`
(a `RequestException`), as in the repository's test
`test_api_request_exception`. -/
def connErrTransport : Transport :=
  fun _ => TransportResult.requestException "Connection error"

/-- The oversize test `x is not None and len(x) > 64` applied to the
optional `client` and `unique` parameters of `init_call`
(api.py lines 182, 188). -/
def oversizedParam : Option String → Bool
  | none => false
  | some c => decide (64 < c.length)

/-- `APIUCaller.init_call` (api.py lines 154-210), parameterized by the
instance attributes and the transport.  In order: the four validations
(lines 170-193), each raising `ParamSetException`,
then `phone = self.change_phone(phone)`
(line 194), then the `try` block.  The f-string of line 198 first reads
`self.__base_url` and `self.__version_api`: inside `class APIUCaller` these
mangle to `_APIUCaller__base_url` / `_APIUCaller__version_api`, names that
`BaseUCaller.__init__` never stores (it stores `_BaseUCaller__base_url`), so
the lookup raises `AttributeError`, which `except
requests.exceptions.RequestException` does not catch.  `self.service_id` and
`self.key` go through the `BaseUCaller` properties and resolve the
`_BaseUCaller__*` names.  A `RequestException` from the transport is caught
and re-raised as `GetException` (lines 205-210). -/
def APIUCaller.init_call (self : Attrs) (tr : Transport) (phone : String)
    (code : String) (client : Option String) (unique : Option String) :
    Except PyErr Json :=
  if !(BaseUCaller.check_phone phone) then Except.error PyErr.paramSetException
  else if decide (4 < code.length) || decide (code.length < 4) then
    Except.error PyErr.paramSetException
  else if oversizedParam client then Except.error PyErr.paramSetException
  else if oversizedParam unique then Except.error PyErr.paramSetException
  else
    match BaseUCaller.change_phone phone with
    | none => Except.error PyErr.indexError
    | some phone2 =>
      match lookupStr self "_APIUCaller__base_url" with
      | none => Except.error PyErr.attributeError
      | some base =>
        match lookupStr self "_APIUCaller__version_api" with
        | none => Except.error PyErr.attributeError
        | some ver =>
          match lookupNat self "_BaseUCaller__service_id",
                lookupStr self "_BaseUCaller__key" with
          | some sid, some key =>
            let url := base ++ ver ++ "/initCall?service_id=" ++ toString sid
              ++ "&key=" ++ key ++ "&phone=" ++ phone2 ++ "&code=" ++ code
              ++ (match client with
                  | some c => "&client=" ++ c
                  | none => "")
              ++ (match unique with
                  | some u => "&unique=" ++ u
                  | none => "")
            match tr url with
            | TransportResult.ok j => Except.ok j
            | TransportResult.requestException _ =>
              Except.error PyErr.getException
          | _, _ => Except.error PyErr.attributeError

/-- The attribute dictionary produced by `BaseUCaller.__init__` with the
class-default service id `296227`, the class-default 32-character key and no
injected session. -/
def sampleAttrs : Attrs :=
  [("_BaseUCaller__service_id", AttrVal.nat 296227),
   ("_BaseUCaller__key", AttrVal.str defaultKey),
   ("_BaseUCaller__session", AttrVal.sess (Session.defaultSession jsonHeaders)),
   ("_BaseUCaller__base_url", AttrVal.str "https://api.ucaller.ru/"),
   ("_BaseUCaller__version_api", AttrVal.str "v1.0")]

/-- The attribute dictionary produced by the repository's own demo call
`APIUCaller(service_id=15235, key="")` (api.py lines 425-428). -/
def demoAttrs : Attrs :=
  [("_BaseUCaller__service_id", AttrVal.nat 15235),
   ("_BaseUCaller__key", AttrVal.str ""),
   ("_BaseUCaller__session", AttrVal.sess (Session.defaultSession jsonHeaders)),
   ("_BaseUCaller__base_url", AttrVal.str "https://api.ucaller.ru/"),
   ("_BaseUCaller__version_api", AttrVal.str "v1.0")]

/-- A hypothetical attribute dictionary in which the base URL and API
version are additionally reachable under the names `APIUCaller.init_call`
actually reads (what `__init__` would have had to store for the URL
construction to work); used to exercise the `try`/`except` block in
isolation from the name-mangling defect. -/
def repairedAttrs : Attrs :=
  [("_APIUCaller__base_url", AttrVal.str "https://api.ucaller.ru/"),
   ("_APIUCaller__version_api", AttrVal.str "v1.0"),
   ("_BaseUCaller__service_id", AttrVal.nat 296227),
   ("_BaseUCaller__key", AttrVal.str defaultKey)]

/-- A 33-character key, one character over the documented limit. -/
def key33 : String := String.mk (List.replicate 33 'a')

/-- A parsed success body for the get-balance operation, with the fields of
the repository's example payload (api.py lines 395-401). -/
def balanceBodyTrue : Json :=
  [("status", JVal.bool true),
   ("rub_balance", JVal.num 84.6),
   ("bonus_balance", JVal.num 0),
   ("tariff", JVal.str "startup"),
   ("tariff_name", JVal.str "Старт-ап")]

/-- A parsed error body, as in the repository's test `test_get_service_error`. -/
def balanceBodyFalse : Json :=
  [("status", JVal.bool false),
   ("error", JVal.str "Service not found"),
   ("code", JVal.num 404)]

/-- Modelled from the spec: the generic error shape of the newer
`pyucallerapi` package (`ErrorResponseModel`), whose code is not under
`src/` (only its tests are): "a generic error shape (status=false, error
message, numeric code)" (spec section 3). -/
structure ErrorResponseModel where
  status : Bool
  error : String
  code : ℚ
  deriving DecidableEq

/-- Modelled from the spec: the response-dispatch step of the newer
`pyucallerapi` request pipeline, whose code is not under `src/` (only its
tests are).  Spec section 4.2, step 5: "on success, parse JSON body; if the
`status` field is `true`, map remaining fields onto the operation's success
model; if `false`, map onto the generic error model (`error` message +
numeric `code`)".  The operation's success model is abstracted as the field
mapper `fromJson`. -/
def dispatchResponse {α : Type} (fromJson : Json → α) (j : Json) :
    α ⊕ ErrorResponseModel :=
  if jBool j "status" = some true then
    Sum.inl (fromJson j)
  else
    Sum.inr ⟨false, (jStr j "error").getD "", (jNum j "code").getD 0⟩

/-- Modelled from the spec: the balance result model of the newer
`pyucallerapi` package (`GetBalanceModel`, absent from `src/`), with the
fields of the get-balance example payload (spec sections 3 and 4.3; api.py
lines 395-401). -/
structure GetBalanceModel where
  status : Bool
  rub_balance : ℚ
  bonus_balance : ℚ
  tariff : String
  tariff_name : String
  deriving DecidableEq

/-- Modelled from the spec: populating the balance success model from the
parsed JSON body ("plain immutable records populated directly from parsed
JSON", spec section 3). -/
def getBalanceFromJson (j : Json) : GetBalanceModel :=
  ⟨(jBool j "status").getD false,
   (jNum j "rub_balance").getD 0,
   (jNum j "bonus_balance").getD 0,
   (jStr j "tariff").getD "",
   (jStr j "tariff_name").getD ""⟩

/-- A warning emitted by an operation of the newer package. -/
inductive PyWarning where
  | deprecation
  deriving DecidableEq

/-- The public operations of the newer `pyucallerapi` package
(spec section 4.3). -/
inductive Operation where
  | initCall
  | initRepeat
  | getInfo
  | getBalance
  | getService
  | inboundCallWaiting
  | checkPhone
  | getAccount
  deriving DecidableEq

/-- Modelled from the spec: the warnings an operation of the newer
`pyucallerapi` package (absent from `src/`) emits before returning.  Spec
section 4.3: "init repeat (deprecated) | ... | repeat result / error; emits
a deprecation warning"; no other operation row mentions a warning. -/
def operationWarnings : Operation → List PyWarning
  | Operation.initRepeat => [PyWarning.deprecation]
  | _ => []

/-- Modelled from the spec: one call of an operation of the newer package on
an already-parsed JSON body: the warnings it emits (before returning) paired
with the dispatched result (here with the raw body standing in for the
operation's success model). -/
def runOperation (op : Operation) (j : Json) :
    List PyWarning × (Json ⊕ ErrorResponseModel) :=
  (operationWarnings op, dispatchResponse id j)

/-! ## Helper lemmas -/

/-- A string whose first character is `'7'` is left unchanged by
`change_phone` (second branch of api.py lines 141-149). -/
theorem change_phone_of_head_seven (q : String) (h : q.data.head? = some '7') :
    BaseUCaller.change_phone q = some q := by
  rcases hq : q.data with _ | ⟨c, t⟩
  · rw [hq] at h
    simp at h
  · rw [hq] at h
    simp only [List.head?_cons, Option.some.injEq] at h
    subst h
    simp [BaseUCaller.change_phone, hq]

/-- Any failed validation makes `init_call` raise `ParamSetException`, for
every attribute state and every transport — in particular the result does
not depend on the transport, so no request is issued. -/
theorem init_call_validation_failure (a : Attrs) (tr : Transport)
    (phone code : String) (client unique : Option String)
    (h : BaseUCaller.check_phone phone = false ∨ code.length ≠ 4 ∨
         oversizedParam client = true ∨ oversizedParam unique = true) :
    APIUCaller.init_call a tr phone code client unique =
      Except.error PyErr.paramSetException := by
  unfold APIUCaller.init_call
  split_ifs with h1 h2 h3 h4
  · rfl
  · rfl
  · rfl
  · rfl
  · exfalso
    rcases h with h | h | h | h
    · rw [h] at h1
      simp at h1
    · simp only [Bool.or_eq_true, decide_eq_true_eq] at h2
      omega
    · exact h3 h
    · exact h4 h

/-- With a valid phone, a 4-character code and no optional parameters,
`init_call` gets past every validation: whatever the attribute state and the
transport do, the result is never the validation error. -/
theorem init_call_code_accepted (a : Attrs) (tr : Transport)
    (phone code : String)
    (hp : BaseUCaller.check_phone phone = true) (hc : code.length = 4) :
    APIUCaller.init_call a tr phone code none none ≠
      Except.error PyErr.paramSetException := by
  unfold APIUCaller.init_call
  split_ifs with h1 h2 h3
  · rw [hp] at h1
    simp at h1
  · simp only [Bool.or_eq_true, decide_eq_true_eq] at h2
    omega
  · simp [oversizedParam] at h3
  · rcases hcp : BaseUCaller.change_phone phone with _ | p2
    · simp [hcp]
    · simp only [hcp]
      rcases hb : lookupStr a "_APIUCaller__base_url" with _ | base
      · simp [hb]
      · simp only [hb]
        rcases hv : lookupStr a "_APIUCaller__version_api" with _ | ver
        · simp [hv]
        · simp only [hv]
          rcases hs : lookupNat a "_BaseUCaller__service_id" with _ | sid
          · simp [hs]
          · rcases hk : lookupStr a "_BaseUCaller__key" with _ | key
            · simp [hs, hk]
            · simp only [hs, hk]
              rcases hr : tr (base ++ ver ++ "/initCall?service_id=" ++ toString sid
                  ++ "&key=" ++ key ++ "&phone=" ++ p2 ++ "&code=" ++ code
                  ++ "" ++ "") with j | m
              · simp [hr]
              · simp [hr]

/-! ## Claims -/

/-- Claim C1: the claim says that an operation call whose transport step
raises a connection error or timeout logs the error and returns a
null/empty result, never raising to the caller.  `src/api.py` does the
opposite: the `except requests.exceptions.RequestException` block of
`init_call` (lines 205-210) re-raises the failure as `GetException` (and
`init_repeat`, lines 236-241, does likewise), so the caller does get an
exception and no null/empty result.  This theorem evaluates the embedded
`init_call` at the failing scenario — valid inputs, attributes resolving as
intended, transport raising `ConnectionError` — and shows the raised
`GetException`. -/
theorem claim_c1_transport_error_is_raised :
    APIUCaller.init_call repairedAttrs connErrTransport "89091234567" "1234"
      none none = Except.error PyErr.getException := by rfl

/-- Claim C2 (spec-modelled, package code absent from `src/`): when the
transport returns a JSON body with `status` equal to `true` the dispatch
step returns the operation's typed success model populated from the JSON by
the operation's field mapper, and when `status` is `false` it returns the
generic error model carrying the body's `error` message and numeric
`code`. -/
theorem claim_c2_status_dispatch {α : Type} (fromJson : Json → α) (j : Json) :
    (jBool j "status" = some true →
      dispatchResponse fromJson j = Sum.inl (fromJson j)) ∧
    (jBool j "status" = some false →
      dispatchResponse fromJson j =
        Sum.inr ⟨false, (jStr j "error").getD "", (jNum j "code").getD 0⟩) := by
  constructor
  · intro h
    simp [dispatchResponse, h]
  · intro h
    simp [dispatchResponse, h]

/-- Witness for C2 at the get-balance operation: a `status: true` body is
mapped onto a populated `GetBalanceModel`, and a `status: false` body onto
the generic error model with its `error` and `code`. -/
theorem claim_c2_status_dispatch_witness :
    jBool balanceBodyTrue "status" = some true ∧
    dispatchResponse getBalanceFromJson balanceBodyTrue =
      Sum.inl ⟨true, 84.6, 0, "startup", "Старт-ап"⟩ ∧
    jBool balanceBodyFalse "status" = some false ∧
    dispatchResponse getBalanceFromJson balanceBodyFalse =
      Sum.inr ⟨false, "Service not found", 404⟩ := by
  refine ⟨rfl, ?_, rfl, ?_⟩
  · rw [(claim_c2_status_dispatch getBalanceFromJson balanceBodyTrue).1 rfl]
    rfl
  · rw [(claim_c2_status_dispatch getBalanceFromJson balanceBodyFalse).2 rfl]
    rfl

/-- Claim C3 is false as stated: `change_phone` does not send every
recognized format to the single canonical string `"+79091234567"`.  At the
concrete input `"89091234567"` it produces `"79091234567"` (no `"+"` is ever
prepended), and the separator format `"8(909)123-45-67"` produces a third,
different value, so the four formats do not share one canonical image. -/
theorem claim_c3_counterexample :
    BaseUCaller.change_phone "89091234567" = some "79091234567" ∧
    BaseUCaller.change_phone "89091234567" ≠ some "+79091234567" ∧
    BaseUCaller.change_phone "8(909)123-45-67" ≠
      BaseUCaller.change_phone "89091234567" := by
  refine ⟨by decide, by decide, by decide⟩

/-- Claim C3 as amended: `change_phone` only rewrites the leading `"+7"`,
`"8"` or other first character to a leading `"7"` and keeps the remainder —
separators included — unchanged: the two all-digit formats map to
`"79091234567"`, while the separator formats keep their separators and no
`"+"` is added. -/
theorem claim_c3_amended :
    BaseUCaller.change_phone "89091234567" = some "79091234567" ∧
    BaseUCaller.change_phone "79091234567" = some "79091234567" ∧
    BaseUCaller.change_phone "8(909)123-45-67" = some "7(909)123-45-67" ∧
    BaseUCaller.change_phone "7 909 123 45 67" = some "7 909 123 45 67" := by
  refine ⟨by decide, by decide, by decide, by decide⟩

/-- Claim C4 is false as stated: the claim says an input like `"12-34"` is
accepted (as the code `"1234"`) because only 4 characters remain after
removing separators.  `init_call` (api.py lines 176-181) compares the raw
length to 4 with no separator removal, so at the concrete input `"12-34"`
(5 characters) with a valid phone it raises the validation error instead of
accepting. -/
theorem claim_c4_counterexample :
    APIUCaller.init_call sampleAttrs trStub "9999999999" "12-34" none none =
      Except.error PyErr.paramSetException := by rfl

/-- Claim C4 as amended: code validation in `init_call` accepts exactly the
string inputs of raw length 4 — no separator characters are removed — and
raises a validation error for every other length, so `"12-34"` is
rejected. -/
theorem claim_c4_amended (a : Attrs) (tr : Transport) (phone code : String)
    (hp : BaseUCaller.check_phone phone = true) :
    (code.length ≠ 4 →
      APIUCaller.init_call a tr phone code none none =
        Except.error PyErr.paramSetException) ∧
    (code.length = 4 →
      APIUCaller.init_call a tr phone code none none ≠
        Except.error PyErr.paramSetException) := by
  constructor
  · intro hc
    exact init_call_validation_failure a tr phone code none none
      (Or.inr (Or.inl hc))
  · intro hc
    exact init_call_code_accepted a tr phone code hp hc

/-- Witness for the amended C4 at concrete inputs: with the valid phone
`"9999999999"`, the 3-character code `"123"` is rejected with the validation
error and the 4-character code `"6123"` gets past code validation. -/
theorem claim_c4_amended_witness :
    BaseUCaller.check_phone "9999999999" = true ∧
    APIUCaller.init_call sampleAttrs trStub "9999999999" "123" none none =
      Except.error PyErr.paramSetException ∧
    APIUCaller.init_call sampleAttrs trStub "9999999999" "6123" none none ≠
      Except.error PyErr.paramSetException := by
  refine ⟨by decide, ?_, ?_⟩
  · exact (claim_c4_amended sampleAttrs trStub "9999999999" "123"
      (by decide)).1 (by decide)
  · exact (claim_c4_amended sampleAttrs trStub "9999999999" "6123"
      (by decide)).2 (by decide)

/-- Claim C5: the claim says every validated call issues a GET whose URL is
the fixed base URL, API version, endpoint and query string.  In
`src/api.py` no such URL is ever built: `self.__base_url` and
`self.__version_api` inside `class APIUCaller` (line 198) mangle to
`_APIUCaller__base_url` / `_APIUCaller__version_api`, while
`BaseUCaller.__init__` stored the values under `_BaseUCaller__base_url` /
`_BaseUCaller__version_api` (lines 45-46), so the f-string raises
`AttributeError` — uncaught by `except requests.exceptions.RequestException`
— before any request and for every transport.  Evaluated here at the
repository's own demo call `init_call(phone="9999999999", code="6123")` on
the attributes its demo constructor produces. -/
theorem claim_c5_mangled_url_attribute_error (tr : Transport) :
    BaseUCaller.init 15235 "" none = Except.ok demoAttrs ∧
    APIUCaller.init_call demoAttrs tr "9999999999" "6123" none none =
      Except.error PyErr.attributeError := ⟨rfl, rfl⟩

/-- Claim C6: each of the four input validations of `init_call` — malformed
phone, code of length other than 4, oversized `client`, oversized `unique` —
raises `ParamSetException`, and the result is the same for every transport,
i.e. the validation error precedes any network request. -/
theorem claim_c6_validation_before_transport (a : Attrs) (tr : Transport)
    (phone code : String) (client unique : Option String)
    (h : BaseUCaller.check_phone phone = false ∨ code.length ≠ 4 ∨
         oversizedParam client = true ∨ oversizedParam unique = true) :
    APIUCaller.init_call a tr phone code client unique =
      Except.error PyErr.paramSetException :=
  init_call_validation_failure a tr phone code client unique h

/-- Witness for C6 at a concrete malformed phone. -/
theorem claim_c6_validation_before_transport_witness :
    (BaseUCaller.check_phone "abc" = false ∨ ("1234" : String).length ≠ 4 ∨
     oversizedParam none = true ∨ oversizedParam none = true) ∧
    APIUCaller.init_call sampleAttrs trStub "abc" "1234" none none =
      Except.error PyErr.paramSetException := by
  refine ⟨Or.inl (by decide), ?_⟩
  exact claim_c6_validation_before_transport sampleAttrs trStub "abc" "1234"
    none none (Or.inl (by decide))

/-- Claim C7: the claim says a key longer than 32 characters fails with a
configuration error (`SetKey`) at construction and at the setter.  The code
does fail immediately in both places, but not with `SetKey`: the raise
statements (api.py lines 27-32 and 101-105) evaluate
`self.service_id.__name__` while building the `SetKey` arguments, and the
`service_id` property returns an int, which has no `__name__`, so
`AttributeError` is raised instead.  Keys of length at most 32 (the empty
demo key included) are accepted and stored unchanged. -/
theorem claim_c7_long_key_attribute_error :
    key33.length = 33 ∧
    BaseUCaller.init 296227 key33 none = Except.error PyErr.attributeError ∧
    BaseUCaller.keySetter sampleAttrs key33 = Except.error PyErr.attributeError ∧
    BaseUCaller.init 15235 "" none = Except.ok demoAttrs ∧
    BaseUCaller.keySetter sampleAttrs "" =
      Except.ok (setAttr sampleAttrs "_BaseUCaller__key" (AttrVal.str "")) :=
  ⟨by decide, rfl, rfl, rfl, rfl⟩

/-- Claim C8 is false as stated: constructing the client without a session
does not fail at all — `BaseUCaller.__init__` (api.py lines 35-43) replaces
a missing session with a fresh `requests.Session` carrying JSON headers, as
this evaluation of the constructor with `session=None` shows. -/
theorem claim_c8_counterexample :
    BaseUCaller.init 296227 defaultKey none = Except.ok sampleAttrs := rfl

/-- Claim C8 as amended: constructing without a session succeeds and
installs a default session with JSON headers; assigning `None` through the
session setter does fail, but with `AttributeError` — the raise (api.py
lines 126-129) evaluates `self.session.__name__` on a `requests.Session`
instance, which has no `__name__` — not with the `SetSession` configuration
error; a provided session is stored. -/
theorem claim_c8_amended :
    BaseUCaller.init 296227 defaultKey none = Except.ok sampleAttrs ∧
    BaseUCaller.sessionSetter sampleAttrs none =
      Except.error PyErr.attributeError ∧
    BaseUCaller.sessionSetter sampleAttrs (some (Session.injected 7)) =
      Except.ok (setAttr sampleAttrs "_BaseUCaller__session"
        (AttrVal.sess (Session.injected 7))) :=
  ⟨rfl, rfl, rfl⟩

/-- Claim C9 (spec-modelled, package code absent from `src/`): an invocation
of the init-repeat operation emits a deprecation warning before returning
its repeat result or error result, and no other operation emits one. -/
theorem claim_c9_deprecation_warning (j : Json) :
    (runOperation Operation.initRepeat j).1 = [PyWarning.deprecation] ∧
    ∀ op : Operation, op ≠ Operation.initRepeat → (runOperation op j).1 = [] := by
  refine ⟨rfl, ?_⟩
  intro op h
  cases op
  · rfl
  · exact absurd rfl h
  · rfl
  · rfl
  · rfl
  · rfl
  · rfl
  · rfl

/-- Witness for C9: on a concrete body, init repeat warns and get balance
does not. -/
theorem claim_c9_deprecation_warning_witness :
    (runOperation Operation.initRepeat balanceBodyTrue).1 =
      [PyWarning.deprecation] ∧
    Operation.getBalance ≠ Operation.initRepeat ∧
    (runOperation Operation.getBalance balanceBodyTrue).1 = [] := by
  refine ⟨(claim_c9_deprecation_warning balanceBodyTrue).1, by decide, ?_⟩
  exact (claim_c9_deprecation_warning balanceBodyTrue).2 Operation.getBalance
    (by decide)

/-- Claim C10: for every string of length at least 2, `change_phone`
succeeds, its result starts with the character `'7'`, and it is idempotent:
applying `change_phone` to the result returns the result unchanged. -/
theorem claim_c10_change_phone_seven_idempotent (p : String)
    (h : 2 ≤ p.length) :
    ∃ q, BaseUCaller.change_phone p = some q ∧ q.data.head? = some '7' ∧
      BaseUCaller.change_phone q = some q := by
  rcases hp : p.data with _ | ⟨c0, _ | ⟨c1, t⟩⟩
  · have h0 : p.length = 0 := by simp [String.length, hp]
    omega
  · have h0 : p.length = 1 := by simp [String.length, hp]
    omega
  · by_cases h0 : c0 = '+'
    · by_cases h1 : c1 = '7'
      · refine ⟨String.mk (c1 :: t), ?_, ?_, ?_⟩
        · simp [BaseUCaller.change_phone, hp, h0, h1]
        · simp [h1]
        · exact change_phone_of_head_seven _ (by simp [h1])
      · refine ⟨String.mk ('7' :: c1 :: t), ?_, ?_, ?_⟩
        · simp [BaseUCaller.change_phone, hp, h0, h1]
        · simp
        · exact change_phone_of_head_seven _ (by simp)
    · by_cases h7 : c0 = '7'
      · refine ⟨p, ?_, ?_, ?_⟩
        · simp [BaseUCaller.change_phone, hp, h0, h7]
        · simp [hp, h7]
        · exact change_phone_of_head_seven _ (by simp [hp, h7])
      · refine ⟨String.mk ('7' :: c1 :: t), ?_, ?_, ?_⟩
        · by_cases h8 : c0 = '8' <;>
            simp [BaseUCaller.change_phone, hp, h0, h7, h8]
        · simp
        · exact change_phone_of_head_seven _ (by simp)

/-- Witness for C10 at the concrete input `"89091234567"`. -/
theorem claim_c10_change_phone_seven_idempotent_witness :
    2 ≤ ("89091234567" : String).length ∧
    ∃ q, BaseUCaller.change_phone "89091234567" = some q ∧
      q.data.head? = some '7' ∧ BaseUCaller.change_phone q = some q :=
  ⟨by decide, claim_c10_change_phone_seven_idempotent "89091234567" (by decide)⟩
